import Mathlib

/-!
Shallow embedding of the ScheduledBackupService class from
src/Backend/src/services/backup/scheduled-backup.service.ts.

Modelling choices:
- Timestamps are integers, milliseconds since the Unix epoch (JS Date value).
- The external collaborators (database client lookup, backup creation,
  upload, retention pruning, the cron timer library) are opaque in the
  repository; they are modelled as oracle parameters returning
  Except String values, where Except.error stands for a thrown exception
  or rejected promise.
- The process-wide SchedulerRegistry is a list of (name, job) pairs;
  getCronJob mirrors the NestJS lookup, which throws when the name is
  absent.
- The CronJob constructor is modelled with two validity oracles for the
  cron expression and the time zone; an invalid one makes the constructor
  throw, exactly as the cron library does.
- The GMT+8 display helper formatGMT8 embeds Date.prototype.toLocaleString
  with the fixed options of the source (en-US, Asia/Manila which is a
  constant UTC+8 offset with no daylight saving, short month, 2-digit day,
  numeric year, 2-digit hour/minute/second, 12-hour clock), implemented
  over the proleptic Gregorian calendar.
-/

/-- Left-pad a natural number to two digits, as the 2-digit option does. -/
def pad2 (n : Nat) : String :=
  if n < 10 then "0" ++ toString n else toString n

/-- Left-pad a natural number to three digits (millisecond field of ISO strings). -/
def pad3 (n : Nat) : String :=
  if n < 10 then "00" ++ toString n
  else if n < 100 then "0" ++ toString n
  else toString n

/-- Left-pad a natural number to four digits (year field of ISO strings). -/
def pad4 (n : Nat) : String :=
  if n < 10 then "000" ++ toString n
  else if n < 100 then "00" ++ toString n
  else if n < 1000 then "0" ++ toString n
  else toString n

/-- Short English month name, as the short month option of toLocaleString. -/
def monthShort : Nat → String
  | 1 => "Jan" | 2 => "Feb" | 3 => "Mar" | 4 => "Apr" | 5 => "May" | 6 => "Jun"
  | 7 => "Jul" | 8 => "Aug" | 9 => "Sep" | 10 => "Oct" | 11 => "Nov" | 12 => "Dec"
  | _ => ""

/-- Convert a count of days since 1970-01-01 to a proleptic Gregorian
civil date (year, month, day). -/
def civilFromDays (z0 : Int) : Int × Nat × Nat :=
  let z := z0 + 719468
  let era : Int := Int.ediv z 146097
  let doe : Nat := (z - era * 146097).toNat
  let yoe : Nat := (doe - doe / 1460 + doe / 36524 - doe / 146096) / 365
  let doy : Nat := doe - (365 * yoe + yoe / 4 - yoe / 100)
  let mp : Nat := (5 * doy + 2) / 153
  let d : Nat := doy - (153 * mp + 2) / 5 + 1
  let m : Nat := if mp < 10 then mp + 3 else mp - 9
  let y : Int := (yoe : Int) + era * 400 + (if m ≤ 2 then 1 else 0)
  (y, m, d)

/-- Milliseconds per day. -/
def msPerDay : Int := 86400000

/-- Embedding of the private formatGMT8 helper: shift the timestamp by the
fixed Asia/Manila offset (UTC+8) and render it as
"Mon DD, YYYY, HH:MM:SS AM/PM" with a 12-hour clock. -/
def formatGMT8 (t : Int) : String :=
  let shifted := t + 8 * 3600000
  let day := Int.ediv shifted msPerDay
  let msOfDay : Nat := (Int.emod shifted msPerDay).toNat
  let ymd := civilFromDays day
  let hour := msOfDay / 3600000
  let minute := msOfDay / 60000 % 60
  let second := msOfDay / 1000 % 60
  let h12 := if hour % 12 = 0 then 12 else hour % 12
  let ampm := if hour < 12 then "AM" else "PM"
  monthShort ymd.2.1 ++ " " ++ pad2 ymd.2.2 ++ ", " ++ toString ymd.1 ++ ", " ++
    pad2 h12 ++ ":" ++ pad2 minute ++ ":" ++ pad2 second ++ " " ++ ampm

/-- Embedding of Date.prototype.toISOString for timestamps whose year fits
the plain four-digit form: "YYYY-MM-DDTHH:MM:SS.sssZ". -/
def toISOString (t : Int) : String :=
  let day := Int.ediv t msPerDay
  let msOfDay : Nat := (Int.emod t msPerDay).toNat
  let ymd := civilFromDays day
  let yearStr := if 0 ≤ ymd.1 then pad4 ymd.1.toNat else "-" ++ pad4 (-ymd.1).toNat
  yearStr ++ "-" ++ pad2 ymd.2.1 ++ "-" ++ pad2 ymd.2.2 ++ "T" ++
    pad2 (msOfDay / 3600000) ++ ":" ++ pad2 (msOfDay / 60000 % 60) ++ ":" ++
    pad2 (msOfDay / 1000 % 60) ++ "." ++ pad3 (msOfDay % 1000) ++ "Z"

/-- Process environment slice read by the service. none models an unset
variable; some "" models a set-but-empty one (falsy in JS). -/
structure Env where
  BACKUP_CRON : Option String
  BACKUP_TIMEZONE : Option String
  BACKUP_ENABLED : Option String
deriving DecidableEq

/-- JS default via the logical-or operator: unset or empty string falls
back to the default. -/
def envOr : Option String → String → String
  | none, d => d
  | some s, d => if s = "" then d else s

/-- State of a cron timer: the expression and time zone it was built with,
and whether it has been started. The onTick callback is modelled
separately (runScheduledCallback below). -/
structure CronJob where
  cronExpression : String
  timezone : String
  running : Bool
deriving DecidableEq

/-- Embedding of the CronJob constructor new CronJob(expr, cb, null, start, tz):
the cron library throws when the expression or the time zone does not
parse; validity of those external formats is abstracted by two oracles. -/
def CronJob.new (validCron validTz : String → Bool) (cronExpression : String)
    (start : Bool) (timezone : String) : Except String CronJob :=
  if validCron cronExpression then
    if validTz timezone then
      .ok ⟨cronExpression, timezone, start⟩
    else .error ("CronJob: invalid timezone " ++ timezone)
  else .error ("CronJob: invalid cron expression " ++ cronExpression)

/-- The process-wide SchedulerRegistry: named cron jobs. -/
abbrev Registry := List (String × CronJob)

/-- Embedding of schedulerRegistry.getCronJob(name): throws when no job is
registered under the name. -/
def getCronJob (reg : Registry) (name : String) : Except String CronJob :=
  match reg.find? (fun p => p.1 == name) with
  | some p => .ok p.2
  | none => .error ("No Cron Job was found with the given name (" ++ name ++ ")")

/-- Write back a job under its name, modelling in-place mutation of the
job object the registry holds by reference. -/
def setCronJob (reg : Registry) (name : String) (job : CronJob) : Registry :=
  reg.map (fun p => if p.1 == name then (p.1, job) else p)

/-- Result of scheduleBackups: the registry as left behind, and the local
CronJob the method constructed (none on the disabled early return). -/
structure ScheduleOutcome where
  registry : Registry
  job : Option CronJob
deriving DecidableEq

/-- Embedding of scheduleBackups(). It reads BACKUP_CRON (default
"0 2 * * *"), BACKUP_TIMEZONE (default "UTC") and BACKUP_ENABLED
(enabled unless the literal string "false"); on the disabled branch it
only logs and returns. Otherwise it constructs the CronJob with
start = false. Note the source then only logs the next run time: it
never calls schedulerRegistry.addCronJob and never calls job.start(),
so the registry passes through unchanged and the job stays un-started.
The log-only nextDate computation is not modelled. -/
def scheduleBackups (validCron validTz : String → Bool) (env : Env)
    (reg : Registry) : Except String ScheduleOutcome :=
  let cronExpression := envOr env.BACKUP_CRON "0 2 * * *"
  let timezone := envOr env.BACKUP_TIMEZONE "UTC"
  if env.BACKUP_ENABLED = some "false" then
    .ok ⟨reg, none⟩
  else
    match CronJob.new validCron validTz cronExpression false timezone with
    | .error e => .error e
    | .ok job => .ok ⟨reg, some job⟩

/-- Collaborator calls the backup pipeline can make, in trace form. -/
inductive BStep where
  | getClient
  | createFullBackup
  | uploadToSupabase (path : String)
  | cleanOldBackups (keepCount : Nat)
deriving DecidableEq

/-- The external collaborators, as outcome oracles: databaseService.getClient,
backupService.createFullBackup / uploadToSupabase / cleanOldBackups.
Except.error models a throw or a rejected promise. -/
structure Collaborators where
  getClient : Except String String
  createFullBackup : String → Except String String
  uploadToSupabase : String → Except String Unit
  cleanOldBackups : Nat → Except String Unit

/-- What one firing of the scheduled callback did: the calls it made, in
order, and the error its catch block logged, if any. The callback itself
always returns (total function), mirroring the try/catch around its body. -/
structure CallbackOutcome where
  trace : List BStep
  caught : Option String
deriving DecidableEq

/-- Embedding of the async onTick closure passed to the CronJob
constructor: get client, await createFullBackup, await uploadToSupabase
on the created path, await cleanOldBackups(30); any throw is caught and
logged. The closure never references the scheduler registry. -/
def runScheduledCallback (c : Collaborators) : CallbackOutcome :=
  match c.getClient with
  | .error e => ⟨[.getClient], some e⟩
  | .ok client =>
    match c.createFullBackup client with
    | .error e => ⟨[.getClient, .createFullBackup], some e⟩
    | .ok backupPath =>
      match c.uploadToSupabase backupPath with
      | .error e => ⟨[.getClient, .createFullBackup, .uploadToSupabase backupPath], some e⟩
      | .ok _ =>
        match c.cleanOldBackups 30 with
        | .error e =>
          ⟨[.getClient, .createFullBackup, .uploadToSupabase backupPath,
            .cleanOldBackups 30], some e⟩
        | .ok _ =>
          ⟨[.getClient, .createFullBackup, .uploadToSupabase backupPath,
            .cleanOldBackups 30], none⟩

/-- One firing of the scheduled callback together with the registry it runs
next to: the closure body contains no registry operation, so the registry
is returned untouched. -/
def runScheduledCallbackW (c : Collaborators) (reg : Registry) :
    CallbackOutcome × Registry :=
  (runScheduledCallback c, reg)

/-- Embedding of triggerManualBackup(): get client, create, upload, return
the backup path; on any throw, log and re-throw. Returns the propagated
result together with the trace of collaborator calls made. -/
def triggerManualBackup (c : Collaborators) : Except String String × List BStep :=
  match c.getClient with
  | .error e => (.error e, [.getClient])
  | .ok client =>
    match c.createFullBackup client with
    | .error e => (.error e, [.getClient, .createFullBackup])
    | .ok backupPath =>
      match c.uploadToSupabase backupPath with
      | .error e => (.error e, [.getClient, .createFullBackup, .uploadToSupabase backupPath])
      | .ok _ => (.ok backupPath, [.getClient, .createFullBackup, .uploadToSupabase backupPath])

/-- Try-block body of stopScheduledBackups(): look the job up under the
fixed key, invoke its stop operation (modelled by an oracle covering both
a throw and a rejected stop promise), and write the stopped job back. -/
def stopBody (stopOp : CronJob → Except String CronJob) (reg : Registry) :
    Except String Registry :=
  match getCronJob reg "database-backup" with
  | .error e => .error e
  | .ok job =>
    match stopOp job with
    | .error e => .error e
    | .ok stopped => .ok (setCronJob reg "database-backup" stopped)

/-- Embedding of stopScheduledBackups(): the whole body sits in a
try/catch whose catch only logs, so every failure becomes a logged
message in the result instead of an outer Except.error. -/
def stopScheduledBackups (stopOp : CronJob → Except String CronJob)
    (reg : Registry) : Except String (Registry × Option String) :=
  match stopBody stopOp reg with
  | .ok reg2 => .ok (reg2, none)
  | .error e => .ok (reg, some e)

/-- Dual date shape the cron library may hand back: a native Date or a
wrapper exposing toJSDate(); both carry a timestamp. -/
inductive CronDateLike where
  | native (t : Int)
  | wrapped (t : Int)
deriving DecidableEq

/-- The instanceof-Date normalization: native dates are used as they are,
wrapped ones through toJSDate(). -/
def normalizeDate : CronDateLike → Int
  | .native t => t
  | .wrapped t => t

/-- Status record returned by getScheduleStatus: the full success shape,
or the degraded shape produced by the catch block. -/
inductive StatusRecord where
  | full (enabled : Bool)
      (cronExpression timezone nextRun nextRunLocal lastRun lastRunLocal
        serverTime serverTimeLocal : String)
  | degraded (enabled : Bool) (cronExpression error : String)
deriving DecidableEq

/-- Try-block body of getScheduleStatus(): look the job up, read
job.nextDate() and job.lastDate() (oracles, since the timer library may
throw or return null or either date shape), normalize, format. The
enabled field of the success record is the literal true. -/
def statusBody (nextOp lastOp : CronJob → Except String (Option CronDateLike))
    (env : Env) (reg : Registry) (now : Int) : Except String StatusRecord :=
  match getCronJob reg "database-backup" with
  | .error e => .error e
  | .ok job =>
    match nextOp job with
    | .error e => .error e
    | .ok nextDate =>
      match lastOp job with
      | .error e => .error e
      | .ok lastDate =>
        let nextRunStr := match nextDate with
          | some d => toISOString (normalizeDate d)
          | none => "N/A"
        let lastRunStr := match lastDate with
          | some d => toISOString (normalizeDate d)
          | none => "N/A"
        .ok (StatusRecord.full true
          (envOr env.BACKUP_CRON "0 2 * * *")
          (envOr env.BACKUP_TIMEZONE "UTC")
          nextRunStr
          (match nextDate with
            | some d => formatGMT8 (normalizeDate d)
            | none => "N/A")
          lastRunStr
          (match lastDate with
            | some d => formatGMT8 (normalizeDate d)
            | none => "N/A")
          (toISOString now)
          (formatGMT8 now))

/-- Embedding of getScheduleStatus(): the whole body sits in a try/catch
whose catch returns the degraded record, so the method never throws
(never yields an outer Except.error). -/
def getScheduleStatus (nextOp lastOp : CronJob → Except String (Option CronDateLike))
    (env : Env) (reg : Registry) (now : Int) : Except String StatusRecord :=
  match statusBody nextOp lastOp env reg now with
  | .ok r => .ok r
  | .error _ =>
    .ok (StatusRecord.degraded false (envOr env.BACKUP_CRON "0 2 * * *")
      "Scheduler not initialized")

/-- Observable state surrounding the service: the registry, the process
environment and the cumulative trace of backup-collaborator calls. -/
structure World where
  registry : Registry
  env : Env
  calls : List BStep
deriving DecidableEq

/-- getScheduleStatus over the full observable state: its source body only
reads (registry lookup, nextDate/lastDate reads, environment reads) and
calls none of the backup collaborators, so the state passes through
unchanged. -/
def getScheduleStatusW (nextOp lastOp : CronJob → Except String (Option CronDateLike))
    (w : World) (now : Int) : Except String StatusRecord × World :=
  (getScheduleStatus nextOp lastOp w.env w.registry now, w)

/-- Oracle accepting every cron expression and time zone. -/
def allValid : String → Bool := fun _ => true

/-- Oracle rejecting every cron expression and time zone. -/
def noValid : String → Bool := fun _ => false

/-- Environment with all three backup variables unset. -/
def noneEnv : Env := ⟨none, none, none⟩

/-- The job scheduleBackups constructs under the default configuration. -/
def sampleJob : CronJob := ⟨"0 2 * * *", "UTC", false⟩

/-- A registry holding the backup job under the fixed key. -/
def sampleReg : Registry := [("database-backup", sampleJob)]

/-- Collaborators that all succeed, producing a fixed backup path. -/
def sampleCollab : Collaborators :=
  ⟨.ok "client", fun _ => .ok "/backups/backup.sql", fun _ => .ok (), fun _ => .ok ()⟩

/-- The timestamp 2024-06-15T10:00:00Z in milliseconds since the epoch. -/
def manilaExampleTs : Int := 1718445600000

/-- A successful CronJob construction pins every field: the given
expression and time zone, and running equal to the start argument. -/
lemma CronJob.new_ok {validCron validTz : String → Bool} {expr tz : String}
    {start : Bool} {j : CronJob}
    (h : CronJob.new validCron validTz expr start tz = .ok j) :
    j = ⟨expr, tz, start⟩ := by
  unfold CronJob.new at h
  split at h
  · split at h
    · exact (Except.ok.inj h).symm
    · exact Except.noConfusion h
  · exact Except.noConfusion h

/-- stopScheduledBackups always returns a value through its catch block. -/
lemma stopScheduledBackups_isOk (stopOp : CronJob → Except String CronJob)
    (reg : Registry) : ∃ out, stopScheduledBackups stopOp reg = .ok out := by
  cases h : stopBody stopOp reg with
  | ok reg2 => exact ⟨(reg2, none), by simp [stopScheduledBackups, h]⟩
  | error e => exact ⟨(reg, some e), by simp [stopScheduledBackups, h]⟩

/-- C1: the claim says scheduleBackups(), on an enabled configuration with
valid cron expression and timezone, registers the constructed timer in the
scheduler registry under the fixed key "database-backup" and starts it, so
that exactly one job is registered under that key afterwards. Evaluating
the embedded code at the default enabled configuration over an empty
registry shows the opposite: the registry comes back empty, the lookup
under the fixed key still fails, and the constructed job was never
started (running = false). -/
theorem scheduleBackups_registers_no_job :
    scheduleBackups allValid allValid noneEnv [] =
      .ok ⟨[], some ⟨"0 2 * * *", "UTC", false⟩⟩ ∧
    getCronJob [] "database-backup" =
      .error "No Cron Job was found with the given name (database-backup)" ∧
    (⟨"0 2 * * *", "UTC", false⟩ : CronJob).running = false :=
  ⟨rfl, rfl, rfl⟩

/-- C2: one firing of the scheduled callback leaves the registry untouched
(the job is never unregistered), and runs get client, createFullBackup,
uploadToSupabase on the created path, cleanOldBackups(30) strictly in that
order; a failure at any step abandons the remaining steps and is caught as
a logged error, the callback itself always returning. The disjunction is a
complete case analysis over where the first failure, if any, occurs. -/
theorem scheduledCallback_sequential_and_caught (c : Collaborators) (reg : Registry) :
    (runScheduledCallbackW c reg).2 = reg ∧
    ((∃ e, c.getClient = .error e ∧
        runScheduledCallback c = ⟨[.getClient], some e⟩) ∨
     (∃ client e, c.getClient = .ok client ∧ c.createFullBackup client = .error e ∧
        runScheduledCallback c = ⟨[.getClient, .createFullBackup], some e⟩) ∨
     (∃ client path e, c.getClient = .ok client ∧ c.createFullBackup client = .ok path ∧
        c.uploadToSupabase path = .error e ∧
        runScheduledCallback c =
          ⟨[.getClient, .createFullBackup, .uploadToSupabase path], some e⟩) ∨
     (∃ client path e, c.getClient = .ok client ∧ c.createFullBackup client = .ok path ∧
        c.uploadToSupabase path = .ok () ∧ c.cleanOldBackups 30 = .error e ∧
        runScheduledCallback c =
          ⟨[.getClient, .createFullBackup, .uploadToSupabase path,
            .cleanOldBackups 30], some e⟩) ∨
     (∃ client path, c.getClient = .ok client ∧ c.createFullBackup client = .ok path ∧
        c.uploadToSupabase path = .ok () ∧ c.cleanOldBackups 30 = .ok () ∧
        runScheduledCallback c =
          ⟨[.getClient, .createFullBackup, .uploadToSupabase path,
            .cleanOldBackups 30], none⟩)) := by
  refine ⟨rfl, ?_⟩
  cases hg : c.getClient with
  | error e =>
    refine Or.inl ⟨e, ?_, ?_⟩ <;> simp [runScheduledCallback, hg]
  | ok client =>
    cases hc : c.createFullBackup client with
    | error e =>
      refine Or.inr (Or.inl ⟨client, e, ?_, ?_, ?_⟩) <;>
        simp [runScheduledCallback, hg, hc]
    | ok path =>
      cases hu : c.uploadToSupabase path with
      | error e =>
        refine Or.inr (Or.inr (Or.inl ⟨client, path, e, ?_, ?_, ?_, ?_⟩)) <;>
          simp [runScheduledCallback, hg, hc, hu]
      | ok u =>
        cases u
        cases hk : c.cleanOldBackups 30 with
        | error e =>
          refine Or.inr (Or.inr (Or.inr (Or.inl
            ⟨client, path, e, ?_, ?_, ?_, ?_, ?_⟩))) <;>
            simp [runScheduledCallback, hg, hc, hu, hk]
        | ok k =>
          cases k
          refine Or.inr (Or.inr (Or.inr (Or.inr
            ⟨client, path, ?_, ?_, ?_, ?_, ?_⟩))) <;>
            simp [runScheduledCallback, hg, hc, hu, hk]

/-- C3: triggerManualBackup never calls cleanOldBackups; when get client,
create and upload all succeed it returns the backup path produced by
createFullBackup; and an error thrown at any step is re-thrown to the
caller unchanged. -/
theorem triggerManualBackup_propagates_and_skips_prune (c : Collaborators) :
    (∀ keepCount, BStep.cleanOldBackups keepCount ∉ (triggerManualBackup c).2) ∧
    (∀ client path, c.getClient = .ok client → c.createFullBackup client = .ok path →
      c.uploadToSupabase path = .ok () →
      triggerManualBackup c =
        (.ok path, [.getClient, .createFullBackup, .uploadToSupabase path])) ∧
    (∀ e, c.getClient = .error e → (triggerManualBackup c).1 = .error e) ∧
    (∀ client e, c.getClient = .ok client → c.createFullBackup client = .error e →
      (triggerManualBackup c).1 = .error e) ∧
    (∀ client path e, c.getClient = .ok client → c.createFullBackup client = .ok path →
      c.uploadToSupabase path = .error e → (triggerManualBackup c).1 = .error e) := by
  refine ⟨?_, ?_, ?_, ?_, ?_⟩
  · intro keepCount
    cases hg : c.getClient with
    | error e => simp [triggerManualBackup, hg]
    | ok client =>
      cases hc : c.createFullBackup client with
      | error e => simp [triggerManualBackup, hg, hc]
      | ok path =>
        cases hu : c.uploadToSupabase path with
        | error e => simp [triggerManualBackup, hg, hc, hu]
        | ok u => simp [triggerManualBackup, hg, hc, hu]
  · intro client path hg hc hu
    simp [triggerManualBackup, hg, hc, hu]
  · intro e hg
    simp [triggerManualBackup, hg]
  · intro client e hg hc
    simp [triggerManualBackup, hg, hc]
  · intro client path e hg hc hu
    simp [triggerManualBackup, hg, hc, hu]

/-- C3 witness: with collaborators that all succeed, the manual trigger
returns the created path and its trace has no prune call. -/
theorem triggerManualBackup_propagates_and_skips_prune_witness :
    triggerManualBackup sampleCollab =
      (.ok "/backups/backup.sql",
        [.getClient, .createFullBackup, .uploadToSupabase "/backups/backup.sql"]) :=
  (triggerManualBackup_propagates_and_skips_prune sampleCollab).2.1
    "client" "/backups/backup.sql" rfl rfl rfl

/-- C4: getScheduleStatus always returns a record (the outer Except is
never an error, for every registry, environment, clock value and timer
oracle behaviour), and whenever the lookup under the fixed key fails — or
the timer dates are malformed, modelled as a throwing nextDate — it
returns exactly the degraded record with enabled false, the configured
cron expression and the message "Scheduler not initialized". -/
theorem getScheduleStatus_never_throws_degraded
    (nextOp lastOp : CronJob → Except String (Option CronDateLike))
    (env : Env) (reg : Registry) (now : Int) :
    (∃ r, getScheduleStatus nextOp lastOp env reg now = .ok r) ∧
    (∀ e, getCronJob reg "database-backup" = .error e →
      getScheduleStatus nextOp lastOp env reg now =
        .ok (.degraded false (envOr env.BACKUP_CRON "0 2 * * *")
          "Scheduler not initialized")) ∧
    (∀ job e, getCronJob reg "database-backup" = .ok job → nextOp job = .error e →
      getScheduleStatus nextOp lastOp env reg now =
        .ok (.degraded false (envOr env.BACKUP_CRON "0 2 * * *")
          "Scheduler not initialized")) := by
  refine ⟨?_, ?_, ?_⟩
  · cases h : statusBody nextOp lastOp env reg now with
    | ok r => exact ⟨r, by simp [getScheduleStatus, h]⟩
    | error e =>
      exact ⟨.degraded false (envOr env.BACKUP_CRON "0 2 * * *")
        "Scheduler not initialized", by simp [getScheduleStatus, h]⟩
  · intro e he
    simp [getScheduleStatus, statusBody, he]
  · intro job e hj hn
    simp [getScheduleStatus, statusBody, hj, hn]

/-- C4 witness: over the empty registry the lookup fails and the degraded
record comes back with the default cron expression. -/
theorem getScheduleStatus_never_throws_degraded_witness :
    getScheduleStatus (fun _ => .ok none) (fun _ => .ok none) noneEnv [] 0 =
      .ok (.degraded false "0 2 * * *" "Scheduler not initialized") :=
  (getScheduleStatus_never_throws_degraded (fun _ => .ok none) (fun _ => .ok none)
    noneEnv [] 0).2.1
    "No Cron Job was found with the given name (database-backup)" rfl

/-- C5: when BACKUP_ENABLED is the literal string "false", scheduleBackups
logs and returns with no job constructed or registered; for every other
value, including unset, the enabled path runs and any successful outcome
carries a constructed job; and with BACKUP_CRON respectively
BACKUP_TIMEZONE unset, that job carries the defaults "0 2 * * *" and
"UTC". -/
theorem scheduleBackups_enabled_flag_defaults :
    (∀ validCron validTz env reg, env.BACKUP_ENABLED = some "false" →
      scheduleBackups validCron validTz env reg = .ok ⟨reg, none⟩) ∧
    (∀ validCron validTz env reg out, env.BACKUP_ENABLED ≠ some "false" →
      scheduleBackups validCron validTz env reg = .ok out → ∃ j, out.job = some j) ∧
    (∀ validCron validTz env reg out j, env.BACKUP_CRON = none →
      scheduleBackups validCron validTz env reg = .ok out → out.job = some j →
      j.cronExpression = "0 2 * * *") ∧
    (∀ validCron validTz env reg out j, env.BACKUP_TIMEZONE = none →
      scheduleBackups validCron validTz env reg = .ok out → out.job = some j →
      j.timezone = "UTC") := by
  refine ⟨?_, ?_, ?_, ?_⟩
  · intro validCron validTz env reg he
    simp [scheduleBackups, he]
  · intro validCron validTz env reg out he hs
    rw [scheduleBackups, if_neg he] at hs
    cases hn : CronJob.new validCron validTz (envOr env.BACKUP_CRON "0 2 * * *")
        false (envOr env.BACKUP_TIMEZONE "UTC") with
    | error e => rw [hn] at hs; exact Except.noConfusion hs
    | ok jb =>
      rw [hn] at hs
      exact ⟨jb, by rw [← Except.ok.inj hs]⟩
  · intro validCron validTz env reg out j hcron hs hj
    by_cases he : env.BACKUP_ENABLED = some "false"
    · rw [scheduleBackups, if_pos he] at hs
      rw [← Except.ok.inj hs] at hj
      exact Option.noConfusion hj
    · rw [scheduleBackups, if_neg he] at hs
      cases hn : CronJob.new validCron validTz (envOr env.BACKUP_CRON "0 2 * * *")
          false (envOr env.BACKUP_TIMEZONE "UTC") with
      | error e => rw [hn] at hs; exact Except.noConfusion hs
      | ok jb =>
        rw [hn] at hs
        rw [← Except.ok.inj hs] at hj
        have hjb : jb = j := Option.some.inj hj
        rw [← hjb, CronJob.new_ok hn, hcron]
        rfl
  · intro validCron validTz env reg out j htz hs hj
    by_cases he : env.BACKUP_ENABLED = some "false"
    · rw [scheduleBackups, if_pos he] at hs
      rw [← Except.ok.inj hs] at hj
      exact Option.noConfusion hj
    · rw [scheduleBackups, if_neg he] at hs
      cases hn : CronJob.new validCron validTz (envOr env.BACKUP_CRON "0 2 * * *")
          false (envOr env.BACKUP_TIMEZONE "UTC") with
      | error e => rw [hn] at hs; exact Except.noConfusion hs
      | ok jb =>
        rw [hn] at hs
        rw [← Except.ok.inj hs] at hj
        have hjb : jb = j := Option.some.inj hj
        rw [← hjb, CronJob.new_ok hn, htz]
        rfl

/-- C5 witness: the literal "false" disables scheduling over the empty
registry, and the default environment yields the default cron expression
on the job the enabled path constructs. -/
theorem scheduleBackups_enabled_flag_defaults_witness :
    scheduleBackups allValid allValid ⟨none, none, some "false"⟩ [] = .ok ⟨[], none⟩ ∧
    sampleJob.cronExpression = "0 2 * * *" :=
  ⟨scheduleBackups_enabled_flag_defaults.1 allValid allValid
      ⟨none, none, some "false"⟩ [] rfl,
    scheduleBackups_enabled_flag_defaults.2.2.1 allValid allValid noneEnv []
      ⟨[], some sampleJob⟩ sampleJob rfl rfl rfl⟩

/-- C6: stopScheduledBackups never propagates an error: for every stop
oracle and registry state it returns through its catch block, and calling
it a second time on the resulting registry returns as well — in
particular stopping twice, or with no job ever registered, cannot throw. -/
theorem stopScheduledBackups_total_idempotent
    (stopOp : CronJob → Except String CronJob) (reg : Registry) :
    ∃ out : Registry × Option String,
      stopScheduledBackups stopOp reg = .ok out ∧
      ∃ out2 : Registry × Option String,
        stopScheduledBackups stopOp out.1 = .ok out2 := by
  obtain ⟨out, h1⟩ := stopScheduledBackups_isOk stopOp reg
  obtain ⟨out2, h2⟩ := stopScheduledBackups_isOk stopOp out.1
  exact ⟨out, h1, out2, h2⟩

/-- C7: when the CronJob constructor throws on the configured cron
expression and timezone, scheduleBackups propagates exactly that error to
its caller — nothing inside the method catches it. -/
theorem scheduleBackups_propagates_ctor_error
    (validCron validTz : String → Bool) (env : Env) (reg : Registry) (e : String)
    (hen : env.BACKUP_ENABLED ≠ some "false")
    (hc : CronJob.new validCron validTz (envOr env.BACKUP_CRON "0 2 * * *")
      false (envOr env.BACKUP_TIMEZONE "UTC") = .error e) :
    scheduleBackups validCron validTz env reg = .error e := by
  rw [scheduleBackups, if_neg hen, hc]

/-- C7 witness: with an oracle rejecting every cron expression, the
default configuration makes scheduleBackups fail with the constructor
error. -/
theorem scheduleBackups_propagates_ctor_error_witness :
    scheduleBackups noValid allValid noneEnv [] =
      .error "CronJob: invalid cron expression 0 2 * * *" :=
  scheduleBackups_propagates_ctor_error noValid allValid noneEnv []
    "CronJob: invalid cron expression 0 2 * * *" (by simp [noneEnv]) rfl

/-- C8: the Manila display helper turns the timestamp 2024-06-15T10:00:00Z
into "Jun 15, 2024, 06:00:00 PM" (UTC+8, 12-hour clock); and scheduling
does not use the display zone: the job scheduleBackups constructs carries
the configured BACKUP_TIMEZONE (default "UTC"), never the display
conversion. -/
theorem formatGMT8_manila_example :
    formatGMT8 manilaExampleTs = "Jun 15, 2024, 06:00:00 PM" ∧
    (∀ validCron validTz env reg out j,
      scheduleBackups validCron validTz env reg = .ok out → out.job = some j →
      j.timezone = envOr env.BACKUP_TIMEZONE "UTC") := by
  refine ⟨rfl, ?_⟩
  intro validCron validTz env reg out j hs hj
  by_cases he : env.BACKUP_ENABLED = some "false"
  · rw [scheduleBackups, if_pos he] at hs
    rw [← Except.ok.inj hs] at hj
    exact Option.noConfusion hj
  · rw [scheduleBackups, if_neg he] at hs
    cases hn : CronJob.new validCron validTz (envOr env.BACKUP_CRON "0 2 * * *")
        false (envOr env.BACKUP_TIMEZONE "UTC") with
    | error e => rw [hn] at hs; exact Except.noConfusion hs
    | ok jb =>
      rw [hn] at hs
      rw [← Except.ok.inj hs] at hj
      rw [← Option.some.inj hj, CronJob.new_ok hn]

/-- C8 witness: the job constructed under the default configuration
carries the default configured timezone. -/
theorem formatGMT8_manila_example_witness :
    sampleJob.timezone = "UTC" :=
  formatGMT8_manila_example.2 allValid allValid noneEnv []
    ⟨[], some sampleJob⟩ sampleJob rfl rfl

/-- C9: on the success path of getScheduleStatus (lookup and both timer
date reads succeed) the returned record has enabled equal to the literal
true, whatever the BACKUP_ENABLED environment variable holds — the
environment is universally quantified and never consulted for that
field. -/
theorem getScheduleStatus_success_enabled_true
    (nextOp lastOp : CronJob → Except String (Option CronDateLike))
    (env : Env) (reg : Registry) (now : Int) (job : CronJob)
    (nd ld : Option CronDateLike)
    (hj : getCronJob reg "database-backup" = .ok job)
    (hn : nextOp job = .ok nd) (hl : lastOp job = .ok ld) :
    ∃ cr tz nr nrl lr lrl st stl,
      getScheduleStatus nextOp lastOp env reg now =
        .ok (.full true cr tz nr nrl lr lrl st stl) := by
  refine ⟨envOr env.BACKUP_CRON "0 2 * * *", envOr env.BACKUP_TIMEZONE "UTC",
    (match nd with | some d => toISOString (normalizeDate d) | none => "N/A"),
    (match nd with | some d => formatGMT8 (normalizeDate d) | none => "N/A"),
    (match ld with | some d => toISOString (normalizeDate d) | none => "N/A"),
    (match ld with | some d => formatGMT8 (normalizeDate d) | none => "N/A"),
    toISOString now, formatGMT8 now, ?_⟩
  cases nd <;> cases ld <;> simp [getScheduleStatus, statusBody, hj, hn, hl]

/-- C9 witness: with BACKUP_ENABLED set to "false" but the job present in
the registry, the status record still reports enabled true. -/
theorem getScheduleStatus_success_enabled_true_witness :
    ∃ cr tz nr nrl lr lrl st stl,
      getScheduleStatus (fun _ => .ok none) (fun _ => .ok none)
          ⟨none, none, some "false"⟩ sampleReg 0 =
        .ok (.full true cr tz nr nrl lr lrl st stl) :=
  getScheduleStatus_success_enabled_true (fun _ => .ok none) (fun _ => .ok none)
    ⟨none, none, some "false"⟩ sampleReg 0 sampleJob none none rfl rfl rfl

/-- C10: getScheduleStatus is read-only over the observable state: for
every timer oracle, world (registry, environment, collaborator-call
trace) and clock value, the state after the call is exactly the state
before it — the registry and every job in it are untouched (so no job is
started or stopped), the environment is unchanged, and no backup
collaborator call is added to the trace. -/
theorem getScheduleStatus_readonly
    (nextOp lastOp : CronJob → Except String (Option CronDateLike))
    (w : World) (now : Int) :
    (getScheduleStatusW nextOp lastOp w now).2 = w ∧
    (getScheduleStatusW nextOp lastOp w now).2.registry = w.registry ∧
    (getScheduleStatusW nextOp lastOp w now).2.env = w.env ∧
    (getScheduleStatusW nextOp lastOp w now).2.calls = w.calls :=
  ⟨rfl, rfl, rfl, rfl⟩
